import Mathlib

/-!
Verification of the SiCDS core against its specification.

The embedding below follows the two source modules:
- `sicds/base.py`: logger and duplicate-store classes; the in-memory
  store `TmpDifStore` is embedded in full.
- `sicds/config.py`: URL-scheme-based component resolution
  (`_instance_from_url`, the `STORES` and `LOGGERS` registries) and the
  `SiCDSConfig` schema field table.

The modules `sicds/schema.py`, `sicds/loggers.py`, `sicds/_couchdb.py`
and `sicds/_mongodb.py` are referenced by `config.py` but are not part
of the sources; where their behaviour decides a property it is
modelled from the specification and marked as such in a doc comment.
-/

/-! ## Embedding of `sicds/base.py` -/

/-- One identifying attribute ("dif"): a (kind, value) pair. In the
source a dif object exposes the fields `type` and `value`
(`base.py`, `TmpDifStore._sleep`). -/
structure Dif where
  type : String
  value : String
  deriving DecidableEq, Repr

/-- In-memory duplicate store (`TmpDifStore` in `base.py`, line 108):
`self.db = set()` holds canonical tuples. The Python `set` is embedded
as a `Finset` of canonical forms. -/
structure TmpDifStore where
  db : Finset (List (String × String))
  deriving DecidableEq

/-- A freshly constructed store (`TmpDifStore.__init__`, line 113):
`self.db = set()`. -/
def TmpDifStore.new : TmpDifStore := ⟨∅⟩

/-- Canonicalization (`TmpDifStore._sleep`, lines 116-118):
`tuple((dif.type, dif.value) for dif in difs)` — the input order of the
difs is preserved, nothing is sorted. -/
def TmpDifStore.sleep (difs : List Dif) : List (String × String) :=
  difs.map (fun d => (d.type, d.value))

/-- Membership test (`TmpDifStore.__contains__`, lines 120-121):
`self._sleep(difs) in self.db`. -/
def TmpDifStore.contains (s : TmpDifStore) (difs : List Dif) : Bool :=
  decide (TmpDifStore.sleep difs ∈ s.db)

/-- Recording (`TmpDifStore.add`, lines 123-124):
`self.db.add(self._sleep(difs))`. -/
def TmpDifStore.add (s : TmpDifStore) (difs : List Dif) : TmpDifStore :=
  ⟨insert (TmpDifStore.sleep difs) s.db⟩

/-- Reset (`TmpDifStore.clear`, lines 126-127): `self.db.clear()`. -/
def TmpDifStore.clear (_ : TmpDifStore) : TmpDifStore := ⟨∅⟩

/-- The canonical form determines the dif list: `_sleep` keeps every
field of every dif, in order. -/
theorem TmpDifStore.sleep_injective : Function.Injective TmpDifStore.sleep := by
  apply List.map_injective_iff.mpr
  intro a b h
  cases a
  cases b
  simpa using h

/-! ## Duplicate-store properties (claims C5-C8, C10) -/

/-- C5: canonicalization preserves input order rather than sorting, so
after `add(A)` on a fresh in-memory store, a reordering of the same
difs is not contained: two Attribute Sets with the same Attributes in
different order are not treated as equal. -/
theorem C5_order_sensitive (A B : List Dif) (hperm : B.Perm A) (hne : B ≠ A) :
    (TmpDifStore.new.add A).contains B = false := by
  simp only [TmpDifStore.contains, TmpDifStore.add, TmpDifStore.new,
    decide_eq_false_iff_not]
  intro hmem
  rcases Finset.mem_insert.mp hmem with h | h
  · exact hne (TmpDifStore.sleep_injective h)
  · exact absurd h (Finset.not_mem_empty _)

/-- C5 witness: the two-element set `[("a","1"), ("b","2")]` added in
one order is not found when queried in the other order. -/
theorem C5_order_sensitive_witness :
    ([⟨"b", "2"⟩, ⟨"a", "1"⟩] : List Dif).Perm [⟨"a", "1"⟩, ⟨"b", "2"⟩] ∧
    ([⟨"b", "2"⟩, ⟨"a", "1"⟩] : List Dif) ≠ [⟨"a", "1"⟩, ⟨"b", "2"⟩] ∧
    (TmpDifStore.new.add [⟨"a", "1"⟩, ⟨"b", "2"⟩]).contains
      [⟨"b", "2"⟩, ⟨"a", "1"⟩] = false :=
  ⟨by decide, by decide,
    C5_order_sensitive [⟨"a", "1"⟩, ⟨"b", "2"⟩] [⟨"b", "2"⟩, ⟨"a", "1"⟩]
      (by decide) (by decide)⟩

/-- C6: `add` is idempotent — adding the same Attribute Set twice
leaves the store in the same observable state (by contains-membership
of every Attribute Set) as adding it once. -/
theorem C6_add_idempotent (s : TmpDifStore) (A B : List Dif) :
    ((s.add A).add A).contains B = (s.add A).contains B := by
  simp [TmpDifStore.add, TmpDifStore.contains, Finset.insert_idem]

/-- C7: on a freshly created in-memory store `contains(A)` is false
before any add, and true immediately after `add(A)` (on any state). -/
theorem C7_contains_after_add (A : List Dif) (s : TmpDifStore) :
    TmpDifStore.new.contains A = false ∧ (s.add A).contains A = true := by
  constructor
  · simp [TmpDifStore.contains, TmpDifStore.new]
  · simp [TmpDifStore.contains, TmpDifStore.add]

/-- C8: after `clear()` on any store state reachable by a sequence of
adds from a fresh store, `contains` is false for every Attribute Set. -/
theorem C8_clear_empties (ops : List (List Dif)) (A : List Dif) :
    ((ops.foldl TmpDifStore.add TmpDifStore.new).clear).contains A = false := by
  simp [TmpDifStore.clear, TmpDifStore.contains]

/-- C10: adding an Attribute Set whose canonical (kind, value) tuple
form differs from that of `B` leaves the membership status of `B`
unchanged, on every store state. -/
theorem C10_add_frame (s : TmpDifStore) (A B : List Dif)
    (h : TmpDifStore.sleep A ≠ TmpDifStore.sleep B) :
    (s.add A).contains B = s.contains B := by
  simp only [TmpDifStore.add, TmpDifStore.contains]
  rw [decide_eq_decide, Finset.mem_insert]
  constructor
  · rintro (h1 | h1)
    · exact absurd h1.symm h
    · exact h1
  · exact Or.inr

/-- C10 witness: adding a phone dif does not make an email dif set
contained. -/
theorem C10_add_frame_witness :
    TmpDifStore.sleep [⟨"phone", "555"⟩] ≠ TmpDifStore.sleep [⟨"email", "a@b"⟩] ∧
    (TmpDifStore.new.add [⟨"phone", "555"⟩]).contains [⟨"email", "a@b"⟩] =
      TmpDifStore.new.contains [⟨"email", "a@b"⟩] :=
  ⟨by decide,
    C10_add_frame TmpDifStore.new [⟨"phone", "555"⟩] [⟨"email", "a@b"⟩] (by decide)⟩

/-! ## Embedding of `sicds/config.py` -/

/-- Result of `urlparse.urlsplit` as far as the config code consumes
it: the (lower-cased) scheme and the remainder of the descriptor after
the scheme separator. A descriptor with no recognized scheme has
scheme `""`, as in Python. -/
structure SplitResult where
  scheme : String
  rest : String
  deriving DecidableEq, Repr

/-- Characters allowed in a URL scheme after the initial letter. -/
def isSchemeChar (c : Char) : Bool :=
  c.isAlphanum || c = '+' || c = '-' || c = '.'

/-- Splits a character list at the first colon, if any. -/
def splitAtColon : List Char → Option (List Char × List Char)
  | [] => none
  | c :: cs =>
    if c = ':' then some ([], cs)
    else (splitAtColon cs).map (fun p => (c :: p.1, p.2))

/-- Scheme extraction as `urlparse.urlsplit` performs it: the part
before the first colon is the scheme when it is nonempty, starts with
a letter and contains only scheme characters; it is lower-cased.
Otherwise the scheme is `""` and the whole string is the remainder. -/
def urlsplit (url : String) : SplitResult :=
  match splitAtColon url.toList with
  | none => ⟨"", url⟩
  | some (s, rest) =>
    match s with
    | [] => ⟨"", url⟩
    | c :: cs =>
      if c.isAlpha ∧ cs.all isSchemeChar then
        ⟨String.mk ((c :: cs).map Char.toLower), String.mk rest⟩
      else ⟨"", url⟩

/-- A constructed component. `TmpStore` is the in-memory store
(`TmpDifStore` in `base.py`); the document-database stores and the
file logger come from modules outside the sources, so only the
descriptor they were built from is recorded. -/
inductive Component where
  | tmpStore
  | couchStore (u : SplitResult)
  | mongoStore (u : SplitResult)
  | nullLogger
  | fileLogger (u : SplitResult)
  | stdOutLogger
  deriving DecidableEq, Repr

/-- An entry of a scheme registry (`STORES` / `LOGGERS` in
`config.py`): either a class, embedded as its constructor — which
receives the split url and may raise, modelled as `Except` with a
`String` exception message — or a `Reference` marker naming another
configuration field. -/
inductive RegEntry where
  | cls (ctor : Option SplitResult → Except String Component)
  | ref (field : String)

/-- The configuration error taxonomy of `config.py` (lines 57-59):
`UnknownUrlScheme` carries the offending scheme, `UrlInitFailure`
carries the split descriptor, and the field-level errors come from the
schema layer. -/
inductive ConfigErr where
  | unknownUrlScheme (scheme : Option String)
  | urlInitFailure (url : Option SplitResult)
  | missingRequiredField (name : String)
  | fieldError (name : String)
  deriving DecidableEq, Repr

/-- What `_instance_from_url` returns on success: a constructed
instance, or the `Reference` marker itself (line 82: a `Reference`
entry is returned as-is). -/
inductive Outcome where
  | inst (c : Component)
  | ref (field : String)

/-- Dictionary lookup in a registry, keyed like the Python dicts by
`None` or a scheme string. -/
def lookupReg (reg : List (Option String × RegEntry)) (k : Option String) :
    Option RegEntry :=
  match reg with
  | [] => none
  | (k2, v) :: rest => if k = k2 then some v else lookupReg rest k

/-- Line 74 of `config.py`: `url = urlsplit(url) if url else None` —
`None` and the empty string are falsy. -/
def splitOf (url : Option String) : Option SplitResult :=
  match url with
  | none => none
  | some s => if s = "" then none else some (urlsplit s)

/-- Line 75 of `config.py`: `scheme = url.scheme if url else None`. -/
def schemeOf (url : Option String) : Option String :=
  (splitOf url).map SplitResult.scheme

/-- The body of the outer `try` of `_instance_from_url` (`config.py`,
lines 76-88): the inner `try` turns a failed registry lookup
(`KeyError`) into a raised `UnknownUrlScheme`; a `Reference` entry is
returned as-is (line 82); otherwise the class's constructor is called
and its exceptions propagate (right summand). The diagnostic `print`
block of lines 83-87 inspects class objects only and does not change
the result. -/
def _instance_body (url : Option String)
    (reg : List (Option String × RegEntry)) : Except (ConfigErr ⊕ String) Outcome :=
  match lookupReg reg (schemeOf url) with
  | none => .error (.inl (.unknownUrlScheme (schemeOf url)))
  | some (.ref f) => .ok (.ref f)
  | some (.cls ctor) =>
    match ctor (splitOf url) with
    | .ok c => .ok (.inst c)
    | .error e => .error (.inr e)

/-- Embedding of `_instance_from_url` (`config.py`, lines 61-90). The
surrounding `try ... except: raise UrlInitFailure(url)` catches every
exception raised in the body — including the `UnknownUrlScheme` the
body itself just raised — and re-raises it as `UrlInitFailure`
carrying the split url. -/
def _instance_from_url (url : Option String)
    (reg : List (Option String × RegEntry)) : Except ConfigErr Outcome :=
  match _instance_body url reg with
  | .ok o => .ok o
  | .error _ => .error (.urlInitFailure (splitOf url))

/-- Constructor of `TmpStore`: `__init__(self, *args)` only creates an
empty set and never raises. -/
def tmpStoreCtor (_ : Option SplitResult) : Except String Component :=
  .ok .tmpStore

/-- Modelled from the spec: `CouchStore` lives in `sicds/_couchdb.py`,
which is not part of the sources; constructing it may contact an
external backend. The embedding records the descriptor; construction
outcomes other than success are covered by quantifying over
constructors in the theorems. -/
def couchStoreCtor (u : Option SplitResult) : Except String Component :=
  match u with
  | some su => .ok (.couchStore su)
  | none => .error "AttributeError"

/-- Modelled from the spec: `MongoStore` lives in `sicds/_mongodb.py`,
which is not part of the sources; see `couchStoreCtor`. -/
def mongoStoreCtor (u : Option SplitResult) : Except String Component :=
  match u with
  | some su => .ok (.mongoStore su)
  | none => .error "AttributeError"

/-- Constructor of `NullLogger`: inherits the no-op `UrlInitable`
initializer and never raises. -/
def nullLoggerCtor (_ : Option SplitResult) : Except String Component :=
  .ok .nullLogger

/-- Constructor of `FileLogger` (`base.py`, lines 81-82): opens the
file at the descriptor's path. Opening is external I/O; the embedding
records the descriptor, and construction failure is covered by
quantifying over constructors in the theorems. A `None` url raises. -/
def fileLoggerCtor (u : Option SplitResult) : Except String Component :=
  match u with
  | some su => .ok (.fileLogger su)
  | none => .error "AttributeError"

/-- Constructor of `StdOutLogger` (`base.py`, lines 91-92): binds
stdout and never raises. -/
def stdOutLoggerCtor (_ : Option SplitResult) : Except String Component :=
  .ok .stdOutLogger

/-- The `STORES` registry (`config.py`, lines 43-48). `config.py`
imports the in-memory store under the name `TmpStore`; `base.py`
defines it as `TmpDifStore`. -/
def STORES : List (Option String × RegEntry) :=
  [(none, .cls tmpStoreCtor),
   (some "tmp", .cls tmpStoreCtor),
   (some "couchdb", .cls couchStoreCtor),
   (some "mongodb", .cls mongoStoreCtor)]

/-- The `LOGGERS` registry (`config.py`, lines 50-55); the `"store"`
entry is the `Reference('store')` marker. -/
def LOGGERS : List (Option String × RegEntry) :=
  [(none, .cls stdOutLoggerCtor),
   (some "null", .cls nullLoggerCtor),
   (some "file", .cls fileLoggerCtor),
   (some "store", .ref "store")]

/-- `store_from_url` (`config.py`, lines 92-93). -/
def store_from_url (url : Option String) : Except ConfigErr Outcome :=
  _instance_from_url url STORES

/-- `logger_from_url` (`config.py`, lines 95-96). -/
def logger_from_url (url : Option String) : Except ConfigErr Outcome :=
  _instance_from_url url LOGGERS

/-! ## Component-resolution properties (claims C2, C3) -/

/-- C2 as the code behaves: resolving the descriptor `"bogus:x"`
against the logger registry fails and constructs no component, but the
error reaching the caller is `UrlInitFailure`, not `UnknownUrlScheme`:
the bare `except:` of `_instance_from_url` swallows the
`UnknownUrlScheme` raised on lookup failure, so no `UnknownUrlScheme`
ever escapes. -/
theorem C2_unknown_scheme_swallowed :
    _instance_from_url (some "bogus:x") LOGGERS =
      Except.error (ConfigErr.urlInitFailure (some ⟨"bogus", "x"⟩)) ∧
    ∀ s, _instance_from_url (some "bogus:x") LOGGERS ≠
      Except.error (ConfigErr.unknownUrlScheme s) := by
  have h1 : _instance_from_url (some "bogus:x") LOGGERS =
      Except.error (ConfigErr.urlInitFailure (some ⟨"bogus", "x"⟩)) := rfl
  refine ⟨h1, fun s h => ?_⟩
  rw [h1] at h
  injection h with h2
  exact ConfigErr.noConfusion h2

/-- C3: whenever the descriptor's scheme is registered to a class and
the class's constructor raises (any exception `e`), `_instance_from_url`
fails with `UrlInitFailure` carrying the split descriptor; the
backend-specific exception never reaches the caller. -/
theorem C3_ctor_failure_wrapped (url : Option String)
    (reg : List (Option String × RegEntry))
    (ctor : Option SplitResult → Except String Component) (e : String)
    (hlook : lookupReg reg (schemeOf url) = some (.cls ctor))
    (hfail : ctor (splitOf url) = .error e) :
    _instance_from_url url reg =
      Except.error (ConfigErr.urlInitFailure (splitOf url)) := by
  unfold _instance_from_url _instance_body
  rw [hlook]
  simp only [hfail]

/-- C3 witness: a registry mapping scheme `"x"` to a class whose
constructor always raises; resolving `"x:1"` yields `UrlInitFailure`
carrying the split descriptor. -/
theorem C3_ctor_failure_wrapped_witness :
    lookupReg [(some "x", RegEntry.cls (fun _ => Except.error "boom"))]
      (schemeOf (some "x:1")) =
      some (RegEntry.cls (fun _ => Except.error "boom")) ∧
    (fun _ => (Except.error "boom" : Except String Component))
      (splitOf (some "x:1")) = Except.error "boom" ∧
    _instance_from_url (some "x:1")
      [(some "x", RegEntry.cls (fun _ => Except.error "boom"))] =
      Except.error (ConfigErr.urlInitFailure (splitOf (some "x:1"))) :=
  ⟨rfl, rfl,
    C3_ctor_failure_wrapped (some "x:1")
      [(some "x", RegEntry.cls (fun _ => Except.error "boom"))]
      (fun _ => Except.error "boom") "boom" rfl rfl⟩

/-! ## The `SiCDSConfig` schema (claims C1, C4) -/

/-- Constant `DEFAULTKEY` (`config.py`, line 30). -/
def DEFAULTKEY : String := "sicds_default_key"

/-- Constant `DEFAULTHOST` (`config.py`, line 32). -/
def DEFAULTHOST : String := "localhost"

/-- Constant `DEFAULTPORT` (`config.py`, line 33). -/
def DEFAULTPORT : Int := 8625

/-- A raw configuration mapping restricted to the keys the
`SiCDSConfig` schema declares; `none` means the key is absent. -/
structure RawConfig where
  superkey : Option String
  store : Option String
  host : Option String
  port : Option Int
  keys : Option (List String)
  loggers : Option (List String)

/-- A resolved configuration value: the schema layer is untyped
Python, so the port and keys fields can hold a string, an integer or a
list of strings depending on which branch produced them. -/
inductive PyVal where
  | pstr (s : String)
  | pint (n : Int)
  | pstrlist (vs : List String)
  deriving DecidableEq, Repr

/-- The fully resolved configuration produced by the schema. -/
structure ResolvedConfig where
  superkey : String
  store : Component
  host : Option String
  port : PyVal
  keys : PyVal
  loggers : List Component
  deriving Repr

/-- Resolution of one logger descriptor: `logger_from_url`, with a
`Reference('store')` result aliasing the already-resolved store
instance (spec §4.2: a Reference Marker makes the field alias the
instance already bound to the referenced field). -/
def resolveLoggerUrl (store : Component) (url : String) :
    Except ConfigErr Component :=
  match logger_from_url (some url) with
  | .error e => .error e
  | .ok (.inst c) => .ok c
  | .ok (.ref _) => .ok store

/-- Resolution of the loggers list: `many(logger_from_url)` applies the
resolver to each element. -/
def resolveLoggers (store : Component) (urls : List String) :
    Except ConfigErr (List Component) :=
  urls.mapM (resolveLoggerUrl store)

/-- Modelled from the spec: the `Schema` resolution algorithm lives in
`sicds/schema.py`, which is not part of the sources; spec §4.2 says a
required field absent from the input fails with a missing-field error
and is otherwise resolved, and an absent optional field takes the
default declared for it. The field table itself is `SiCDSConfig` in
`config.py` (lines 98-108): required `superkey` (`t_uni`, a unicode
coercion) and `store` (`store_from_url`); optional `host` (resolver
`str` with no declared default, so an absent host stays absent),
`port` (`withdefault(int, '')` — the declared default is the empty
string), `keys` (`withdefault(many(t_uni), [])` — the declared default
is the empty list) and `loggers` (`withdefault(many(logger_from_url),
[StdOutLogger()])` — the declared default is one standard-output
logger). The `DEFAULTHOST`, `DEFAULTPORT` and `DEFAULTKEY` constants
of lines 30-33 appear in no field default. -/
def SiCDSConfig.resolve (raw : RawConfig) : Except ConfigErr ResolvedConfig :=
  match raw.superkey with
  | none => .error (.missingRequiredField "superkey")
  | some sk =>
    match raw.store with
    | none => .error (.missingRequiredField "store")
    | some storeUrl =>
      match store_from_url (some storeUrl) with
      | .error e => .error e
      | .ok (.ref _) => .error (.fieldError "store")
      | .ok (.inst storeC) =>
        let host := raw.host
        let port := match raw.port with
          | none => PyVal.pstr ""
          | some n => PyVal.pint n
        let keys := match raw.keys with
          | none => PyVal.pstrlist []
          | some ks => PyVal.pstrlist ks
        match raw.loggers with
        | none => .ok ⟨sk, storeC, host, port, keys, [Component.stdOutLogger]⟩
        | some urls =>
          match resolveLoggers storeC urls with
          | .error e => .error e
          | .ok ls => .ok ⟨sk, storeC, host, port, keys, ls⟩

/-- The raw configuration containing only `superkey` and `store`. -/
def onlyRequiredRaw : RawConfig :=
  ⟨some "s", some "tmp:", none, none, none, none⟩

/-- C1 as the code behaves: resolving a configuration holding only
`superkey` and `store` succeeds and yields one standard-output logger,
but the port defaults to the string `''` rather than `8625`, the keys
default to the empty list rather than one default key, and no host is
bound, because the field table of `SiCDSConfig` declares `''` and `[]`
as the defaults and attaches none to `host`, leaving the
`DEFAULTHOST`/`DEFAULTPORT`/`DEFAULTKEY` constants unused. -/
theorem C1_defaults_diverge :
    SiCDSConfig.resolve onlyRequiredRaw =
      Except.ok ⟨"s", Component.tmpStore, none, PyVal.pstr "",
        PyVal.pstrlist [], [Component.stdOutLogger]⟩ ∧
    PyVal.pstr "" ≠ PyVal.pint DEFAULTPORT ∧
    PyVal.pstrlist [] ≠ PyVal.pstrlist [DEFAULTKEY] ∧
    (none : Option String) ≠ some DEFAULTHOST := by
  refine ⟨?_, by decide, by decide, by decide⟩
  rfl

/-- Modelled from the spec: Python object identity for the default
loggers value. The schema machinery (`sicds/schema.py`, not part of
the sources) receives the default as a value; the list literal
`[StdOutLogger()]` on line 107 of `config.py` is evaluated exactly
once, when the `SiCDSConfig` class body executes, so every resolution
that falls back to the default receives the same list object. Objects
are modelled by allocation ids; id 0 is the list allocated at
class-body evaluation. -/
def defaultLoggersObjId : Nat := 0

/-- Object id of the loggers list a resolution leaves in the resolved
configuration: the class-body default object when the field is absent,
a fresh list (allocated at the resolution's own fresh id, always
positive) when it is present. -/
def resolvedLoggersObjId (rawLoggers : Option (List String)) (fresh : Nat) : Nat :=
  match rawLoggers with
  | none => defaultLoggersObjId
  | some _ => fresh + 1

/-- C4 as the code behaves: two distinct configuration resolutions
(with distinct fresh-allocation ids 0 and 1) that both default the
loggers field end up holding the same object — the single default list
allocated at class-body evaluation — rather than fresh instances per
resolution. -/
theorem C4_default_shared :
    resolvedLoggersObjId none 0 = defaultLoggersObjId ∧
    resolvedLoggersObjId none 1 = defaultLoggersObjId ∧
    resolvedLoggersObjId none 0 = resolvedLoggersObjId none 1 :=
  ⟨rfl, rfl, rfl⟩

/-! ## Concurrent check-and-insert (claim C9) -/

/-- A check-and-insert operation on the shared store, as the code
offers it, is the naive two-call sequence of spec §5: one atomic
`contains` step followed by one atomic `add` step (`base.py` exposes
no combined primitive and no lock). A schedule interleaves the steps
of several operations: each entry names an operation, the first
occurrence of an operation id runs its `contains` step and records the
observation, the second runs its `add` step. Returns the final store
and each operation's recorded observation. -/
def runSched (A : List Dif) : List Nat → TmpDifStore → List (Nat × Bool) →
    TmpDifStore × List (Nat × Bool)
  | [], s, obs => (s, obs)
  | i :: rest, s, obs =>
    match obs.lookup i with
    | none => runSched A rest s ((i, s.contains A) :: obs)
    | some _ => runSched A rest (s.add A) obs

/-- Number of operations that observed "not previously present", i.e.
whose `contains` step returned false. -/
def countNotPresent (obs : List (Nat × Bool)) : Nat :=
  (obs.filter (fun p => !p.2)).length

/-- C9 as the code behaves: the schedule `[0, 1, 0, 1]` is a valid
interleaving of two concurrent check-and-insert operations for the
same Attribute Set (each operation takes its two steps in order), yet
run from a fresh store both operations observe "not previously
present" — both callers are told "unique" — instead of exactly one,
because nothing makes the contains/add pair atomic. The sequential
schedule `[0, 0, 1, 1]` of the same two operations does yield exactly
one such observation. -/
theorem C9_race_two_told_unique :
    ([0, 1, 0, 1] : List Nat).count 0 = 2 ∧
    ([0, 1, 0, 1] : List Nat).count 1 = 2 ∧
    countNotPresent
      (runSched [⟨"phone", "555"⟩] [0, 1, 0, 1] TmpDifStore.new []).2 = 2 ∧
    countNotPresent
      (runSched [⟨"phone", "555"⟩] [0, 0, 1, 1] TmpDifStore.new []).2 = 1 := by
  refine ⟨by decide, by decide, by decide, by decide⟩
